import Mathlib

set_option autoImplicit false
set_option maxRecDepth 1000000
set_option maxHeartbeats 4000000

namespace VoucherPay

/-! Shallow embedding of the token core of `app/core/security.py`,
the `/refresh` endpoint of `app/api/v1/endpoints/auth.py`, the TOTP
verification path (`pyotp` with HMAC-SHA1), and the middleware pipeline of
`app/utils/accessibility.py`, `app/utils/analytics.py` and `app/main.py`.
Clocks are passed explicitly (seconds since epoch as `Int` or `Nat`),
mirroring `datetime.utcnow()` / `time.time()`. -/

/-- A JSON-style value stored under a claim name in a JWT payload. -/
inductive CVal where
  | s (v : String)
  | n (v : Int)
  | b (v : Bool)
  | l (v : List String)
deriving DecidableEq, Repr

/-- A token payload: a Python `dict` modelled as an association list
(duplicate-key-free in every state reachable from real inputs). -/
abbrev Claims := List (String × CVal)

/-- First-match lookup: the read behaviour of a Python `dict` (`d.get(k)`). -/
def lookupClaim (k : String) : Claims → Option CVal
  | [] => none
  | (k', v) :: rest => if k' = k then some v else lookupClaim k rest

/-- Python `d[k] = v` / `d.update({k: v})`: replace the binding in place when
the key is present, otherwise append it at the end (insertion order). -/
def setClaim (k : String) (v : CVal) : Claims → Claims
  | [] => [(k, v)]
  | (k', v') :: rest => if k' = k then (k, v) :: rest else (k', v') :: setClaim k v rest

/-- `c ⊆ c'` as claim sets: every claim readable from `c` is readable from
`c'` with the same value. -/
def ClaimsSubset (c c' : Claims) : Prop :=
  ∀ k v, lookupClaim k c = some v → lookupClaim k c' = some v

theorem lookup_setClaim_self (k : String) (v : CVal) (c : Claims) :
    lookupClaim k (setClaim k v c) = some v := by
  induction c with
  | nil => simp [setClaim, lookupClaim]
  | cons p rest ih =>
    obtain ⟨k', v'⟩ := p
    by_cases h : k' = k
    · simp [setClaim, lookupClaim, h]
    · simp [setClaim, lookupClaim, h, ih]

theorem lookup_setClaim_ne (k' k : String) (v : CVal) (c : Claims) (h : k' ≠ k) :
    lookupClaim k' (setClaim k v c) = lookupClaim k' c := by
  have hk : ¬ (k = k') := fun hh => h hh.symm
  induction c with
  | nil => simp [setClaim, lookupClaim, hk]
  | cons p rest ih =>
    obtain ⟨k₀, v₀⟩ := p
    by_cases h₀ : k₀ = k
    · have hk₀ : ¬ (k₀ = k') := by
        rw [h₀]; exact hk
      simp [setClaim, lookupClaim, h₀, hk, hk₀]
    · by_cases h₁ : k₀ = k'
      · simp [setClaim, lookupClaim, h₀, h₁, h]
      · simp [setClaim, lookupClaim, h₀, h₁, ih]

/-- The fields of `app/core/config.py`'s `Settings` that the token core
reads (secret, algorithm and the two lifetimes). -/
structure Settings where
  SECRET_KEY : String
  ALGORITHM : String
  ACCESS_TOKEN_EXPIRE_MINUTES : Int
  REFRESH_TOKEN_EXPIRE_DAYS : Int
deriving DecidableEq, Repr

/-- The `Settings()` instance with the defaults of `config.py`. -/
def testSettings : Settings :=
  ⟨"your-secret-key-change-this-in-production", "HS256", 30, 7⟩

/-- A signed token, the output of `jose.jwt.encode(payload, key, algorithm)`:
modelled shallowly as the payload together with the signing key and
algorithm, so that decoding with the same key and algorithm recovers the
payload and any other key or algorithm fails the signature check. -/
structure JWT where
  payload : Claims
  key : String
  alg : String
deriving DecidableEq, Repr

/-- The `jose.JWTError` subclasses this application can hit:
`JWSSignatureError`, `ExpiredSignatureError`, `ImmatureSignatureError` and
`JWTClaimsError` (malformed or unexpected claim values). -/
inductive JWTError where
  | invalidSignature
  | expiredSignature
  | immatureSignature
  | claimsError
deriving DecidableEq, Repr

def jwt_encode (payload : Claims) (key : String) (alg : String) : JWT :=
  ⟨payload, key, alg⟩

/-- Decimal digit list to the number it spells (most significant first). -/
def digitsToNat (ds : List Nat) : Nat := ds.foldl (fun acc d => acc * 10 + d) 0

/-- Python `int(s)` on a string: optional surrounding spaces, optional
sign, a nonempty run of decimal digits; anything else fails. -/
def parseIntStr (s : String) : Option Int :=
  let t :=
    ((s.toList.dropWhile (fun c => c = ' ')).reverse.dropWhile
      (fun c => c = ' ')).reverse
  let signed : Bool × List Char :=
    match t with
    | '-' :: rest => (true, rest)
    | '+' :: rest => (false, rest)
    | _ => (false, t)
  if signed.2 ≠ [] ∧ signed.2.all Char.isDigit then
    let v : Int := Int.ofNat (digitsToNat (signed.2.map (fun c => c.toNat - 48)))
    some (if signed.1 then -v else v)
  else none

/-- Python `int(value)` as jose applies it to time claims: ints stay, bools
coerce to 0/1, numeric strings parse; values not coercible to an integer
fail claim validation with `JWTClaimsError` (jose catches `int()`'s
`ValueError`; the model folds the exotic container-value `TypeError`
corner into the same rejection). -/
def cvalToInt : CVal → Option Int
  | .n v => some v
  | .b v => some (if v then 1 else 0)
  | .s v => parseIntStr v
  | .l _ => none

/-- `jose.jwt._validate_iat`: a present `iat` must be int-coercible
(its value is not compared against the clock). -/
def validate_iat (c : Claims) : Option JWTError :=
  match lookupClaim "iat" c with
  | none => none
  | some v =>
    match cvalToInt v with
    | none => some .claimsError
    | some _ => none

/-- `jose.jwt._validate_nbf`: a present `nbf` must be int-coercible and not
strictly in the future (`now < nbf`, zero leeway). -/
def validate_nbf (c : Claims) (now : Int) : Option JWTError :=
  match lookupClaim "nbf" c with
  | none => none
  | some v =>
    match cvalToInt v with
    | none => some .claimsError
    | some nb => if now < nb then some .immatureSignature else none

/-- `jose.jwt._validate_exp`: a present `exp` must be int-coercible and not
strictly in the past (`exp < now`, zero leeway). -/
def validate_exp (c : Claims) (now : Int) : Option JWTError :=
  match lookupClaim "exp" c with
  | none => none
  | some v =>
    match cvalToInt v with
    | none => some .claimsError
    | some e => if e < now then some .expiredSignature else none

/-- `jose.jwt._validate_aud` when `decode` is called without an `audience`
argument, as this application always does: any present `aud` claim fails
(`None` is never among the token's audience values). -/
def validate_aud (c : Claims) : Option JWTError :=
  match lookupClaim "aud" c with
  | none => none
  | some _ => some .claimsError

/-- `jose.jwt._validate_sub`: a present `sub` must be a string. -/
def validate_sub (c : Claims) : Option JWTError :=
  match lookupClaim "sub" c with
  | none => none
  | some (.s _) => none
  | some _ => some .claimsError

/-- `jose.jwt._validate_jti`: a present `jti` must be a string. -/
def validate_jti (c : Claims) : Option JWTError :=
  match lookupClaim "jti" c with
  | none => none
  | some (.s _) => none
  | some _ => some .claimsError

/-- `jose.jwt._validate_at_hash` when `decode` is given no `access_token`
to compare against, as here: any present `at_hash` claim fails. -/
def validate_at_hash (c : Claims) : Option JWTError :=
  match lookupClaim "at_hash" c with
  | none => none
  | some _ => some .claimsError

/-- `jose.jwt._validate_claims` with jose's default options and no
audience, issuer, subject or access_token argument: the validators run in
jose's order (`iat`, `nbf`, `exp`, `aud`, `sub`, `jti`, `at_hash`; issuer
validation is skipped when no issuer is supplied) and the first failure
wins. -/
def validate_claims (c : Claims) (now : Int) : Option JWTError :=
  (validate_iat c).orElse (fun _ =>
    (validate_nbf c now).orElse (fun _ =>
      (validate_exp c now).orElse (fun _ =>
        (validate_aud c).orElse (fun _ =>
          (validate_sub c).orElse (fun _ =>
            (validate_jti c).orElse (fun _ =>
              validate_at_hash c))))))

/-- `jose.jwt.decode(token, key, algorithms=[alg])` as `verify_token` and
`verify_password_reset_token` call it: the signature check, then the
default claim validations. -/
def jwt_decode (tok : JWT) (key : String) (alg : String) (now : Int) :
    Except JWTError Claims :=
  if tok.key ≠ key ∨ tok.alg ≠ alg then .error .invalidSignature
  else
    match validate_claims tok.payload now with
    | some e => .error e
    | none => .ok tok.payload

/-- `fastapi.HTTPException`, restricted to the fields this code sets. -/
structure HTTPError where
  status_code : Int
  detail : String
deriving DecidableEq, Repr

/-- `security.create_access_token(data, expires_delta)`: copies `data`, then
`update({"exp": now + delta, "type": "access"})` (the update overwrites any
caller-supplied `exp` / `type`), and signs with the configured secret.
`expires_delta` is in seconds; `None` falls back to
`ACCESS_TOKEN_EXPIRE_MINUTES`. -/
def create_access_token (st : Settings) (now : Int) (data : Claims)
    (expires_delta : Option Int) : JWT :=
  let expire : Int :=
    match expires_delta with
    | some d => now + d
    | none => now + st.ACCESS_TOKEN_EXPIRE_MINUTES * 60
  jwt_encode (setClaim "type" (.s "access") (setClaim "exp" (.n expire) data))
    st.SECRET_KEY st.ALGORITHM

/-- `security.create_refresh_token(data)`: as above with `type = "refresh"`
and `exp = now + REFRESH_TOKEN_EXPIRE_DAYS` (days, in seconds). -/
def create_refresh_token (st : Settings) (now : Int) (data : Claims) : JWT :=
  jwt_encode
    (setClaim "type" (.s "refresh")
      (setClaim "exp" (.n (now + st.REFRESH_TOKEN_EXPIRE_DAYS * 86400)) data))
    st.SECRET_KEY st.ALGORITHM

/-- `security.verify_token(token)`: decode, converting every `JWTError` into
`HTTPException(401, "Could not validate credentials")`. -/
def verify_token (st : Settings) (now : Int) (tok : JWT) :
    Except HTTPError Claims :=
  match jwt_decode tok st.SECRET_KEY st.ALGORITHM now with
  | .ok payload => .ok payload
  | .error _ => .error ⟨401, "Could not validate credentials"⟩

/-- `security.get_current_user_token`: `verify_token`, then reject with
`HTTPException(401, "Invalid token type")` unless the `type` claim is the
string `"access"`. -/
def get_current_user_token (st : Settings) (now : Int) (tok : JWT) :
    Except HTTPError Claims :=
  match verify_token st now tok with
  | .error e => .error e
  | .ok payload =>
    if lookupClaim "type" payload = some (.s "access") then .ok payload
    else .error ⟨401, "Invalid token type"⟩

/-- `security.create_password_reset_token(email)`: the literal payload
`{"exp": now + 3600, "nbf": now, "sub": email, "type": "password_reset"}`. -/
def create_password_reset_token (st : Settings) (now : Int) (email : String) : JWT :=
  jwt_encode
    [("exp", .n (now + 3600)), ("nbf", .n now), ("sub", .s email),
     ("type", .s "password_reset")]
    st.SECRET_KEY st.ALGORITHM

/-- `security.verify_password_reset_token(token)`: decode inside
`try/except JWTError`, returning `None` on any decode failure or on a
`type` claim other than `"password_reset"`, else `decoded_token.get("sub")`
(the raw claim value). The `Option` return type is the model of the
`except JWTError: return None` catch: no failure escapes as an exception. -/
def verify_password_reset_token (st : Settings) (now : Int) (tok : JWT) :
    Option CVal :=
  match jwt_decode tok st.SECRET_KEY st.ALGORITHM now with
  | .error _ => none
  | .ok decoded =>
    if lookupClaim "type" decoded = some (.s "password_reset") then
      lookupClaim "sub" decoded
    else none

/-- Response body of the `/refresh` endpoint on success. -/
structure RefreshResponse where
  access_token : JWT
  token_type : String
  expires_in : Int
deriving DecidableEq, Repr

/-- `auth.refresh_token(refresh_token)` (`/api/v1/auth/refresh`): the body is
a TODO stub — the supplied token is never decoded or checked; the endpoint
unconditionally issues a fresh access token for a hard-coded user. The
`Except` result mirrors a FastAPI handler's ability to raise
`HTTPException`; this handler never does. -/
def refresh_endpoint (st : Settings) (now : Int) (_refresh_tok : JWT) :
    Except HTTPError RefreshResponse :=
  let user_data : Claims :=
    [("sub", .s "user@example.com"), ("email", .s "user@example.com"),
     ("role", .s "user")]
  let access_token :=
    create_access_token st now user_data (some (st.ACCESS_TOKEN_EXPIRE_MINUTES * 60))
  .ok ⟨access_token, "bearer", st.ACCESS_TOKEN_EXPIRE_MINUTES * 60⟩

/-- An HTTP-boundary outcome is "unauthenticated" when it is an
`HTTPException` with status 401. -/
def isUnauthenticated {α : Type} : Except HTTPError α → Bool
  | .error e => e.status_code == 401
  | .ok _ => false

/-- The issued payload keeps every subject claim whose key is neither
`"type"` nor `"exp"`. -/
theorem claimsSubset_issued (data : Claims) (tv ev : CVal)
    (hT : lookupClaim "type" data = none) (hE : lookupClaim "exp" data = none) :
    ClaimsSubset data (setClaim "type" tv (setClaim "exp" ev data)) := by
  intro k v hk
  have hkT : k ≠ "type" := by
    intro h; rw [h, hT] at hk; exact Option.noConfusion hk
  have hkE : k ≠ "exp" := by
    intro h; rw [h, hE] at hk; exact Option.noConfusion hk
  rw [lookup_setClaim_ne k "type" _ _ hkT, lookup_setClaim_ne k "exp" _ _ hkE]
  exact hk

/-- Claim C1, direction "refresh token at an access call site" together with
the state of the `/refresh` endpoint. Part 1: for every token produced by
`create_refresh_token`, `get_current_user_token` fails with a 401
unauthenticated outcome at every verification time (either the decode fails,
or the `type` claim is `"refresh"` and the type check rejects). Part 2:
the `/refresh` endpoint never inspects the supplied token — its result is
identical for every token, so an access token passed where a refresh token
is expected is accepted rather than rejected. Part 3 evaluates the endpoint
at such a failing input: it answers `200 OK` with a fresh access token. -/
theorem refresh_rejected_access_but_refresh_endpoint_unchecked :
    (∀ (st : Settings) (tIssue tCheck : Int) (data : Claims),
      isUnauthenticated
        (get_current_user_token st tCheck (create_refresh_token st tIssue data)) = true)
    ∧ (∀ (st : Settings) (now : Int) (tok tok' : JWT),
        refresh_endpoint st now tok = refresh_endpoint st now tok')
    ∧ refresh_endpoint testSettings 0
        (create_access_token testSettings 0 [("sub", CVal.s "u1")] (some 60)) =
      .ok ⟨create_access_token testSettings 0
            [("sub", CVal.s "user@example.com"), ("email", CVal.s "user@example.com"),
             ("role", CVal.s "user")] (some 1800),
           "bearer", 1800⟩ := by
  refine ⟨?_, ?_, ?_⟩
  · intro st tIssue tCheck data
    simp only [get_current_user_token, verify_token, create_refresh_token,
      jwt_encode, jwt_decode, ne_eq, not_true_eq_false, false_or, or_self,
      if_false, ite_false]
    cases hv : validate_claims
        (setClaim "type" (CVal.s "refresh")
          (setClaim "exp" (CVal.n (tIssue + st.REFRESH_TOKEN_EXPIRE_DAYS * 86400)) data))
        tCheck with
    | some e => simp [hv, isUnauthenticated]
    | none => simp [hv, isUnauthenticated, lookup_setClaim_self]
  · intro st now tok tok'
    rfl
  · rfl

/-- Claim C2 counterexample: the round-trip claim quantifies over every
claim set `C`, but issuance overwrites caller-supplied `type`/`exp` claims,
so for `C = {"type": "refresh"}` the verified payload is not a superset of
`C`; and for `C = {"nbf": 2000}` verification fails with 401 even before
`now + ttl` (jose validates the caller-supplied `nbf`). -/
theorem access_roundtrip_counterexample :
    (get_current_user_token testSettings 10
        (create_access_token testSettings 0 [("type", CVal.s "refresh")] (some 60)) =
      .ok [("type", CVal.s "access"), ("exp", CVal.n 60)])
    ∧ ¬ ClaimsSubset [("type", CVal.s "refresh")]
        [("type", CVal.s "access"), ("exp", CVal.n 60)]
    ∧ isUnauthenticated
        (get_current_user_token testSettings 10
          (create_access_token testSettings 0 [("nbf", CVal.n 2000)] (some 60))) = true := by
  refine ⟨by rfl, ?_, by rfl⟩
  intro h
  have := h "type" (CVal.s "refresh") (by simp [lookupClaim])
  simp [lookupClaim] at this

/-- Claim C2 as amended: for every settings value, issue time, ttl and
subject-claim set `data` that carries none of the jose-validated claims
`type`, `exp`, `nbf`, `iat`, `aud`, `jti`, `at_hash` (the issuer overwrites
the first two; the decoder's default validations reject or re-interpret
caller-supplied values of the others) and whose `sub` claim, if present,
is a string: verifying the issued access token with
`get_current_user_token` before `now + ttl` succeeds and returns a payload
that extends `data` with `type = "access"` and the issuer-computed expiry,
and strictly after `now + ttl` it fails with the 401 unauthenticated
outcome. -/
theorem access_roundtrip_amended :
    ∀ (st : Settings) (now ttl tCheck : Int) (data : Claims),
      lookupClaim "type" data = none →
      lookupClaim "exp" data = none →
      lookupClaim "nbf" data = none →
      lookupClaim "iat" data = none →
      lookupClaim "aud" data = none →
      lookupClaim "jti" data = none →
      lookupClaim "at_hash" data = none →
      (∀ v, lookupClaim "sub" data = some v → ∃ s, v = CVal.s s) →
      (tCheck < now + ttl →
        get_current_user_token st tCheck (create_access_token st now data (some ttl)) =
          .ok (setClaim "type" (CVal.s "access") (setClaim "exp" (CVal.n (now + ttl)) data))
        ∧ lookupClaim "type"
            (setClaim "type" (CVal.s "access") (setClaim "exp" (CVal.n (now + ttl)) data)) =
            some (CVal.s "access")
        ∧ lookupClaim "exp"
            (setClaim "type" (CVal.s "access") (setClaim "exp" (CVal.n (now + ttl)) data)) =
            some (CVal.n (now + ttl))
        ∧ ClaimsSubset data
            (setClaim "type" (CVal.s "access") (setClaim "exp" (CVal.n (now + ttl)) data)))
      ∧ (now + ttl < tCheck →
          isUnauthenticated
            (get_current_user_token st tCheck (create_access_token st now data (some ttl))) = true) := by
  intro st now ttl tCheck data hT hE hN hI hA hJ hH hS
  have hLk : ∀ k : String, k ≠ "type" → k ≠ "exp" →
      lookupClaim k
        (setClaim "type" (CVal.s "access") (setClaim "exp" (CVal.n (now + ttl)) data)) =
      lookupClaim k data := by
    intro k h1 h2
    rw [lookup_setClaim_ne k "type" _ _ h1, lookup_setClaim_ne k "exp" _ _ h2]
  have hExp : lookupClaim "exp"
      (setClaim "type" (CVal.s "access") (setClaim "exp" (CVal.n (now + ttl)) data)) =
      some (CVal.n (now + ttl)) := by
    rw [lookup_setClaim_ne "exp" "type" _ _ (by decide), lookup_setClaim_self]
  have vIat : validate_iat
      (setClaim "type" (CVal.s "access") (setClaim "exp" (CVal.n (now + ttl)) data)) = none := by
    unfold validate_iat
    rw [hLk "iat" (by decide) (by decide), hI]
  have vNbf : validate_nbf
      (setClaim "type" (CVal.s "access") (setClaim "exp" (CVal.n (now + ttl)) data)) tCheck = none := by
    unfold validate_nbf
    rw [hLk "nbf" (by decide) (by decide), hN]
  have vAud : validate_aud
      (setClaim "type" (CVal.s "access") (setClaim "exp" (CVal.n (now + ttl)) data)) = none := by
    unfold validate_aud
    rw [hLk "aud" (by decide) (by decide), hA]
  have vJti : validate_jti
      (setClaim "type" (CVal.s "access") (setClaim "exp" (CVal.n (now + ttl)) data)) = none := by
    unfold validate_jti
    rw [hLk "jti" (by decide) (by decide), hJ]
  have vHash : validate_at_hash
      (setClaim "type" (CVal.s "access") (setClaim "exp" (CVal.n (now + ttl)) data)) = none := by
    unfold validate_at_hash
    rw [hLk "at_hash" (by decide) (by decide), hH]
  have vSub : validate_sub
      (setClaim "type" (CVal.s "access") (setClaim "exp" (CVal.n (now + ttl)) data)) = none := by
    unfold validate_sub
    rw [hLk "sub" (by decide) (by decide)]
    cases hcase : lookupClaim "sub" data with
    | none => rfl
    | some v =>
      obtain ⟨s, rfl⟩ := hS v hcase
      rfl
  constructor
  · intro hlt
    have vExp : validate_exp
        (setClaim "type" (CVal.s "access") (setClaim "exp" (CVal.n (now + ttl)) data)) tCheck = none := by
      unfold validate_exp
      rw [hExp]
      show (if now + ttl < tCheck then some JWTError.expiredSignature else none) = none
      rw [if_neg (show ¬ (now + ttl < tCheck) by omega)]
    have vAll : validate_claims
        (setClaim "type" (CVal.s "access") (setClaim "exp" (CVal.n (now + ttl)) data)) tCheck = none := by
      simp only [validate_claims, vIat, vNbf, vExp, vAud, vSub, vJti, vHash,
        Option.orElse]
    refine ⟨?_, lookup_setClaim_self _ _ _, hExp, claimsSubset_issued data _ _ hT hE⟩
    simp only [get_current_user_token, verify_token, create_access_token,
      jwt_encode, jwt_decode, ne_eq, not_true_eq_false, false_or, or_self,
      if_false, ite_false, vAll, lookup_setClaim_self, ite_true, if_true]
  · intro hgt
    have vExp : validate_exp
        (setClaim "type" (CVal.s "access") (setClaim "exp" (CVal.n (now + ttl)) data)) tCheck =
        some JWTError.expiredSignature := by
      unfold validate_exp
      rw [hExp]
      show (if now + ttl < tCheck then some JWTError.expiredSignature else none) =
        some JWTError.expiredSignature
      rw [if_pos (show now + ttl < tCheck from hgt)]
    have vAll : validate_claims
        (setClaim "type" (CVal.s "access") (setClaim "exp" (CVal.n (now + ttl)) data)) tCheck =
        some JWTError.expiredSignature := by
      simp only [validate_claims, vIat, vNbf, vExp, Option.orElse]
    simp [get_current_user_token, verify_token, create_access_token,
      jwt_encode, jwt_decode, vAll, isUnauthenticated]

/-- Claim C2 amended, witness: the round trip at the config defaults,
`data = {"sub": "u1"}`, issued at 0 with ttl 60, checked at 10 (success with
the extended payload) and at 100 (401). -/
theorem access_roundtrip_amended_witness :
    (get_current_user_token testSettings 10
        (create_access_token testSettings 0 [("sub", CVal.s "u1")] (some 60)) =
      .ok (setClaim "type" (CVal.s "access")
            (setClaim "exp" (CVal.n 60) [("sub", CVal.s "u1")])))
    ∧ isUnauthenticated
        (get_current_user_token testSettings 100
          (create_access_token testSettings 0 [("sub", CVal.s "u1")] (some 60))) = true :=
  ⟨((access_roundtrip_amended testSettings 0 60 10 [("sub", CVal.s "u1")]
      (by simp [lookupClaim]) (by simp [lookupClaim]) (by simp [lookupClaim])
      (by simp [lookupClaim]) (by simp [lookupClaim]) (by simp [lookupClaim])
      (by simp [lookupClaim])
      (by
        intro v hv
        rw [show lookupClaim "sub" [("sub", CVal.s "u1")] = some (CVal.s "u1")
          from rfl] at hv
        exact ⟨"u1", (Option.some.inj hv).symm⟩)).1
      (by norm_num)).1,
   (access_roundtrip_amended testSettings 0 60 100 [("sub", CVal.s "u1")]
      (by simp [lookupClaim]) (by simp [lookupClaim]) (by simp [lookupClaim])
      (by simp [lookupClaim]) (by simp [lookupClaim]) (by simp [lookupClaim])
      (by simp [lookupClaim])
      (by
        intro v hv
        rw [show lookupClaim "sub" [("sub", CVal.s "u1")] = some (CVal.s "u1")
          from rfl] at hv
        exact ⟨"u1", (Option.some.inj hv).symm⟩)).2
      (by norm_num)⟩

/-- Claim C3: `verify_password_reset_token` applied to
`create_password_reset_token email` returns the email (as the `sub` claim
value) when evaluated at the issuance instant, and returns `none` at every
instant strictly more than 3600 seconds past issuance. -/
theorem password_reset_roundtrip :
    ∀ (st : Settings) (now : Int) (email : String),
      verify_password_reset_token st now (create_password_reset_token st now email) =
        some (CVal.s email)
      ∧ ∀ t : Int, now + 3600 < t →
          verify_password_reset_token st t (create_password_reset_token st now email) = none := by
  intro st now email
  constructor
  · have h1 : ¬ (now < now) := by omega
    have h2 : ¬ (now + 3600 < now) := by omega
    simp [verify_password_reset_token, create_password_reset_token, jwt_encode,
      jwt_decode, validate_claims, validate_iat, validate_nbf, validate_exp,
      validate_aud, validate_sub, validate_jti, validate_at_hash, cvalToInt,
      lookupClaim, Option.orElse, h1, h2]
  · intro t ht
    have h1 : ¬ (t < now) := by omega
    have h2 : now + 3600 < t := ht
    simp [verify_password_reset_token, create_password_reset_token, jwt_encode,
      jwt_decode, validate_claims, validate_iat, validate_nbf, validate_exp,
      validate_aud, validate_sub, validate_jti, validate_at_hash, cvalToInt,
      lookupClaim, Option.orElse, h1, h2]

/-- Claim C3 witness: the round trip for `"a@b.com"` issued at 0, read back
at 0 (returns the email) and at 3601 (returns `none`). -/
theorem password_reset_roundtrip_witness :
    verify_password_reset_token testSettings 0
        (create_password_reset_token testSettings 0 "a@b.com") = some (CVal.s "a@b.com")
    ∧ verify_password_reset_token testSettings 3601
        (create_password_reset_token testSettings 0 "a@b.com") = none :=
  ⟨(password_reset_roundtrip testSettings 0 "a@b.com").1,
   (password_reset_roundtrip testSettings 0 "a@b.com").2 3601 (by norm_num)⟩

/-- Claim C4: `verify_password_reset_token` converts every decode failure
(wrong key or algorithm, expired `exp`, future `nbf`, malformed or
unexpected claim values) and every wrong-type payload into the normal
negative result `none`; no such failure escapes as an exception (the
function's `Option` type is the `except JWTError: return None` catch —
only input outside the token type at all, i.e. malformed input, is outside
this contract). -/
theorem password_reset_verify_never_raises :
    ∀ (st : Settings) (now : Int) (tok : JWT),
      (∀ e : JWTError, jwt_decode tok st.SECRET_KEY st.ALGORITHM now = .error e →
        verify_password_reset_token st now tok = none)
      ∧ (∀ claims : Claims, jwt_decode tok st.SECRET_KEY st.ALGORITHM now = .ok claims →
          lookupClaim "type" claims ≠ some (CVal.s "password_reset") →
          verify_password_reset_token st now tok = none) := by
  intro st now tok
  constructor
  · intro e he
    simp [verify_password_reset_token, he]
  · intro claims hc ht
    simp [verify_password_reset_token, hc, ht]

/-- Claim C4 witness: an expired reset token (issued at 0, checked at 4000),
a token signed with a different key, and a refresh token presented as a
reset token all yield `none`. -/
theorem password_reset_verify_never_raises_witness :
    verify_password_reset_token testSettings 4000
        (create_password_reset_token testSettings 0 "a@b.com") = none
    ∧ verify_password_reset_token testSettings 0
        (jwt_encode [("sub", CVal.s "a@b.com"), ("type", CVal.s "password_reset")]
          "other-key" "HS256") = none
    ∧ verify_password_reset_token testSettings 0
        (create_refresh_token testSettings 0 [("sub", CVal.s "a@b.com")]) = none :=
  ⟨(password_reset_verify_never_raises testSettings 4000
      (create_password_reset_token testSettings 0 "a@b.com")).1
      JWTError.expiredSignature (by rfl),
   (password_reset_verify_never_raises testSettings 0
      (jwt_encode [("sub", CVal.s "a@b.com"), ("type", CVal.s "password_reset")]
        "other-key" "HS256")).1 JWTError.invalidSignature (by rfl),
   (password_reset_verify_never_raises testSettings 0
      (create_refresh_token testSettings 0 [("sub", CVal.s "a@b.com")])).2
      (setClaim "type" (CVal.s "refresh")
        (setClaim "exp" (CVal.n (0 + testSettings.REFRESH_TOKEN_EXPIRE_DAYS * 86400))
          [("sub", CVal.s "a@b.com")])) (by rfl) (by decide)⟩

/-- Claim C10: for every input claim set (including ones that carry their
own `type` or `exp` entries), the issued payload's `type` claim is exactly
the issuer's discriminator and its `exp` claim is exactly the
issuer-computed expiry — caller-supplied values for these claims never
survive. -/
theorem issuance_overwrites_discriminator_claims :
    ∀ (st : Settings) (now : Int) (data : Claims) (delta : Option Int),
      lookupClaim "type" (create_access_token st now data delta).payload =
        some (CVal.s "access")
      ∧ lookupClaim "exp" (create_access_token st now data delta).payload =
          some (CVal.n (now + (match delta with
            | some d => d
            | none => st.ACCESS_TOKEN_EXPIRE_MINUTES * 60)))
      ∧ lookupClaim "type" (create_refresh_token st now data).payload =
          some (CVal.s "refresh")
      ∧ lookupClaim "exp" (create_refresh_token st now data).payload =
          some (CVal.n (now + st.REFRESH_TOKEN_EXPIRE_DAYS * 86400)) := by
  intro st now data delta
  refine ⟨?_, ?_, ?_, ?_⟩
  · cases delta <;>
      simp [create_access_token, jwt_encode, lookup_setClaim_self]
  · cases delta <;>
      · simp only [create_access_token, jwt_encode]
        rw [lookup_setClaim_ne "exp" "type" _ _ (by decide), lookup_setClaim_self]
  · simp [create_refresh_token, jwt_encode, lookup_setClaim_self]
  · simp only [create_refresh_token, jwt_encode]
    rw [lookup_setClaim_ne "exp" "type" _ _ (by decide), lookup_setClaim_self]

/-! TOTP verification (`security.verify_totp_token` via `pyotp.TOTP.verify`).
`pyotp` computes RFC 4226 HOTP over HMAC-SHA1; the hash, the HMAC, the
base32 secret decoding and the dynamic truncation are embedded below so the
comparison window semantics can be evaluated on real code values. Bytes are
`Nat`s below 256, 32-bit words are `Nat`s reduced mod 2^32. -/

/-- Truncation to a 32-bit word. -/
def w32 (x : Nat) : Nat := x % 4294967296

/-- 32-bit left rotation. -/
def rotl (n x : Nat) : Nat := w32 ((x <<< n) ||| (x >>> (32 - n)))

/-- Big-endian byte serialisation of `val` on `n` bytes. -/
def natToBytesBE (n val : Nat) : List Nat :=
  (List.range n).map (fun i => (val >>> (8 * (n - 1 - i))) &&& 255)

/-- Pack bytes into big-endian 32-bit words. -/
def bytesToWords : List Nat → List Nat
  | b0 :: b1 :: b2 :: b3 :: rest =>
    ((((b0 <<< 8) ||| b1) <<< 8 ||| b2) <<< 8 ||| b3) :: bytesToWords rest
  | _ => []

/-- SHA-1 message schedule: extend the 16 block words to 80. -/
def sha1Schedule (ws : Array Nat) : Array Nat :=
  (List.range 64).foldl
    (fun a i =>
      a.push (rotl 1 ((a.getD (i + 13) 0) ^^^ (a.getD (i + 8) 0) ^^^
        (a.getD (i + 2) 0) ^^^ (a.getD i 0))))
    ws

/-- SHA-1 round constant for round `i`. -/
def sha1K (i : Nat) : Nat :=
  if i < 20 then 1518500249
  else if i < 40 then 1859775393
  else if i < 60 then 2400959708
  else 3395469782

/-- One SHA-1 round on the five-word state. -/
def sha1Round (w : Array Nat) (st : Nat × Nat × Nat × Nat × Nat) (i : Nat) :
    Nat × Nat × Nat × Nat × Nat :=
  let (a, b, c, d, e) := st
  let f :=
    if i < 20 then (b &&& c) ||| ((b ^^^ 4294967295) &&& d)
    else if i < 40 then b ^^^ c ^^^ d
    else if i < 60 then (b &&& c) ||| (b &&& d) ||| (c &&& d)
    else b ^^^ c ^^^ d
  (w32 (rotl 5 a + f + e + sha1K i + w.getD i 0), a, rotl 30 b, c, d)

/-- SHA-1 compression of one 64-byte block. -/
def sha1Compress (h : Nat × Nat × Nat × Nat × Nat) (block : List Nat) :
    Nat × Nat × Nat × Nat × Nat :=
  let w := sha1Schedule (Array.mk (bytesToWords block))
  let (a, b, c, d, e) := (List.range 80).foldl (sha1Round w) h
  (w32 (h.1 + a), w32 (h.2.1 + b), w32 (h.2.2.1 + c), w32 (h.2.2.2.1 + d),
    w32 (h.2.2.2.2 + e))

/-- Merkle–Damgård padding: `0x80`, zeros to 56 mod 64, 8-byte bit length. -/
def sha1Pad (msg : List Nat) : List Nat :=
  msg ++ [128] ++ List.replicate ((119 - msg.length % 64) % 64) 0 ++
    natToBytesBE 8 (msg.length * 8)

/-- Split into 64-byte blocks (fuel-driven; called with enough fuel). -/
def chunks64 : Nat → List Nat → List (List Nat)
  | 0, _ => []
  | _, [] => []
  | fuel + 1, l => l.take 64 :: chunks64 fuel (l.drop 64)

/-- SHA-1 of a byte string, as a 20-byte digest. -/
def sha1 (msg : List Nat) : List Nat :=
  let padded := sha1Pad msg
  let (a, b, c, d, e) :=
    (chunks64 padded.length padded).foldl sha1Compress
      (1732584193, 4023233417, 2562383102, 271733878, 3285377520)
  natToBytesBE 4 a ++ natToBytesBE 4 b ++ natToBytesBE 4 c ++
    natToBytesBE 4 d ++ natToBytesBE 4 e

/-- `hmac.new(key, msg, hashlib.sha1).digest()` (64-byte block size). -/
def hmac_sha1 (key msg : List Nat) : List Nat :=
  let key' := if 64 < key.length then sha1 key else key
  let kpad := key' ++ List.replicate (64 - key'.length) 0
  sha1 ((kpad.map (fun b => b ^^^ 92)) ++ sha1 ((kpad.map (fun b => b ^^^ 54)) ++ msg))

/-- Value of one RFC 4648 base32 alphabet character (case-folded, as
`base64.b32decode(..., casefold=True)`). -/
def b32charVal (c : Char) : Nat :=
  let u := c.toUpper
  if 'A' ≤ u ∧ u ≤ 'Z' then u.toNat - 65
  else if '2' ≤ u ∧ u ≤ '7' then u.toNat - 24
  else 0

/-- `pyotp`'s `byte_secret`: base32-decode the secret. Restricted to
unpadded RFC 4648 alphabet strings, the form `pyotp.random_base32`
produces. -/
def b32decode (s : String) : List Nat :=
  let vals := s.toList.map b32charVal
  natToBytesBE ((5 * vals.length) / 8)
    ((vals.foldl (fun acc v => acc * 32 + v) 0) >>> ((5 * vals.length) % 8))

/-- Left-pad a numeric string with zeros to `digits` characters. -/
def zfill (digits : Nat) (s : String) : String :=
  String.mk (List.replicate (digits - s.length) '0') ++ s

/-- The dynamic-truncation half of `pyotp.otp.OTP.generate_otp` (RFC 4226
§5.3), applied to the `hmac_hash` digest: low nibble of the last byte as
offset, 31-bit big-endian word at that offset, low `digits` decimal
digits, zero-padded. -/
def dynamicTruncate (d : List Nat) (digits : Nat) : String :=
  let offset := d.getD 19 0 &&& 15
  let code := ((d.getD offset 0 &&& 127) <<< 24) ||| ((d.getD (offset + 1) 0) <<< 16) |||
    ((d.getD (offset + 2) 0) <<< 8) ||| d.getD (offset + 3) 0
  zfill digits (toString (code % 10 ^ digits))

/-- `pyotp.otp.OTP.generate_otp`: HMAC-SHA1 of the 8-byte big-endian
counter, then dynamic truncation. -/
def hotp (key : List Nat) (counter digits : Nat) : String :=
  dynamicTruncate (hmac_sha1 key (natToBytesBE 8 counter)) digits

/-- `pyotp.TOTP(secret).at(t)`: the 6-digit code of the 30-second time step
containing instant `t` (defaults `interval=30`, `digits=6`, SHA-1). -/
def totp_at (secret : String) (t : Nat) : String :=
  hotp (b32decode secret) (t / 30) 6

/-- `security.verify_totp_token(secret, token)` =
`pyotp.TOTP(secret).verify(token)` at the injected current time `now`:
pyotp's default `valid_window=0` compares the submitted code against the
code of the current time step only. `utils.strings_equal` NFKC-normalises
both sides before the constant-time comparison; on the ASCII digit strings
that step-computed codes are, normalisation is the identity, so it is
plain string equality here. -/
def verify_totp_token (secret token : String) (now : Nat) : Bool :=
  token == totp_at secret now

/-- The RFC 4226 / RFC 6238 test secret (base32 of
`"12345678901234567890"`), a well-formed generated-secret shape. -/
def rfcSecret : String := "GEZDGNBVGY3TQOJQGEZDGNBVGY3TQOJQ"

theorem b32_rfcSecret :
    b32decode rfcSecret =
      [49, 50, 51, 52, 53, 54, 55, 56, 57, 48,
       49, 50, 51, 52, 53, 54, 55, 56, 57, 48] := by
  rfl

theorem hmac_rfc_counter1 :
    hmac_sha1 [49, 50, 51, 52, 53, 54, 55, 56, 57, 48,
               49, 50, 51, 52, 53, 54, 55, 56, 57, 48] (natToBytesBE 8 1) =
      [117, 164, 138, 25, 212, 203, 225, 0, 100, 78,
       138, 193, 57, 126, 234, 116, 122, 45, 51, 171] := by
  rfl

theorem hmac_rfc_counter2 :
    hmac_sha1 [49, 50, 51, 52, 53, 54, 55, 56, 57, 48,
               49, 50, 51, 52, 53, 54, 55, 56, 57, 48] (natToBytesBE 8 2) =
      [11, 172, 183, 250, 8, 47, 239, 48, 120, 34,
       17, 147, 139, 193, 197, 231, 4, 22, 255, 68] := by
  rfl

theorem hmac_rfc_counter11 :
    hmac_sha1 [49, 50, 51, 52, 53, 54, 55, 56, 57, 48,
               49, 50, 51, 52, 53, 54, 55, 56, 57, 48] (natToBytesBE 8 11) =
      [202, 30, 4, 2, 193, 158, 219, 104, 37, 51,
       158, 160, 20, 63, 11, 238, 84, 252, 13, 192] := by
  rfl

theorem hotp_rfc_1 :
    hotp [49, 50, 51, 52, 53, 54, 55, 56, 57, 48,
          49, 50, 51, 52, 53, 54, 55, 56, 57, 48] 1 6 = "287082" := by
  show dynamicTruncate
    (hmac_sha1 [49, 50, 51, 52, 53, 54, 55, 56, 57, 48,
                49, 50, 51, 52, 53, 54, 55, 56, 57, 48] (natToBytesBE 8 1)) 6 = "287082"
  rw [hmac_rfc_counter1]
  rfl

theorem hotp_rfc_2 :
    hotp [49, 50, 51, 52, 53, 54, 55, 56, 57, 48,
          49, 50, 51, 52, 53, 54, 55, 56, 57, 48] 2 6 = "359152" := by
  show dynamicTruncate
    (hmac_sha1 [49, 50, 51, 52, 53, 54, 55, 56, 57, 48,
                49, 50, 51, 52, 53, 54, 55, 56, 57, 48] (natToBytesBE 8 2)) 6 = "359152"
  rw [hmac_rfc_counter2]
  rfl

theorem hotp_rfc_11 :
    hotp [49, 50, 51, 52, 53, 54, 55, 56, 57, 48,
          49, 50, 51, 52, 53, 54, 55, 56, 57, 48] 11 6 = "481090" := by
  show dynamicTruncate
    (hmac_sha1 [49, 50, 51, 52, 53, 54, 55, 56, 57, 48,
                49, 50, 51, 52, 53, 54, 55, 56, 57, 48] (natToBytesBE 8 11)) 6 = "481090"
  rw [hmac_rfc_counter11]
  rfl

theorem totp_rfc_59 : totp_at rfcSecret 59 = "287082" := by
  show hotp (b32decode rfcSecret) 1 6 = "287082"
  rw [b32_rfcSecret]
  exact hotp_rfc_1

theorem totp_rfc_30 : totp_at rfcSecret 30 = "287082" := by
  show hotp (b32decode rfcSecret) 1 6 = "287082"
  rw [b32_rfcSecret]
  exact hotp_rfc_1

theorem totp_rfc_60 : totp_at rfcSecret 60 = "359152" := by
  show hotp (b32decode rfcSecret) 2 6 = "359152"
  rw [b32_rfcSecret]
  exact hotp_rfc_2

theorem totp_rfc_330 : totp_at rfcSecret 330 = "481090" := by
  show hotp (b32decode rfcSecret) 11 6 = "481090"
  rw [b32_rfcSecret]
  exact hotp_rfc_11

/-- Claim C5 counterexample: `verify_totp_token` calls `pyotp`'s `verify`
with its default `valid_window=0`, not the claimed ±1-step window. At
instant 59 (time step 1) the code of the adjacent step 2 (instant 60) is
`"359152"`, distinct from step 1's `"287082"` (the RFC 6238 SHA-1 vectors),
and verification of that adjacent-step code returns `false`, where the
claim says it returns `true`. -/
theorem totp_adjacent_step_counterexample :
    totp_at rfcSecret 59 = "287082"
    ∧ totp_at rfcSecret 60 = "359152"
    ∧ verify_totp_token rfcSecret "359152" 59 = false := by
  refine ⟨totp_rfc_59, totp_rfc_60, ?_⟩
  show ("359152" == totp_at rfcSecret 59) = false
  rw [totp_rfc_59]
  rfl

/-- Claim C5 as amended: `verify_totp_token S c` (at injected current time
`now`) accepts exactly the code of the current 30-second time step: it
returns `true` iff `c` is the current step's code — so any code computed
for the same time step is accepted, and any code computed for a different
time step (adjacent ±1 or ±10 steps away alike) is rejected whenever it
differs from the current step's code. -/
theorem totp_verify_current_step_only :
    (∀ (secret token : String) (now : Nat),
      verify_totp_token secret token now = true ↔ token = totp_at secret now)
    ∧ (∀ (secret : String) (t t' : Nat), t' / 30 = t / 30 →
        verify_totp_token secret (totp_at secret t') t = true)
    ∧ (∀ (secret : String) (t t' : Nat), totp_at secret t' ≠ totp_at secret t →
        verify_totp_token secret (totp_at secret t') t = false) := by
  refine ⟨?_, ?_, ?_⟩
  · intro s c t
    simp [verify_totp_token]
  · intro s t t' h
    simp [verify_totp_token, totp_at, h]
  · intro s t t' h
    simp [verify_totp_token, h]

/-- Claim C5 amended, witness: with the RFC 6238 secret, the code generated
at instant 30 is accepted at instant 59 (same time step), and the codes of
the adjacent step (instant 60) and of a step 10 steps away (instant 330)
differ from the current step's code and are rejected at instant 59. -/
theorem totp_verify_current_step_only_witness :
    verify_totp_token rfcSecret (totp_at rfcSecret 30) 59 = true
    ∧ verify_totp_token rfcSecret (totp_at rfcSecret 60) 59 = false
    ∧ verify_totp_token rfcSecret (totp_at rfcSecret 330) 59 = false :=
  ⟨totp_verify_current_step_only.2.1 rfcSecret 59 30 (by rfl),
   totp_verify_current_step_only.2.2 rfcSecret 59 60
     (by rw [totp_rfc_60, totp_rfc_59]; decide),
   totp_verify_current_step_only.2.2 rfcSecret 59 330
     (by rw [totp_rfc_330, totp_rfc_59]; decide)⟩

/-! JSON bodies, for `AccessibilityMiddleware._enhance_json_response`. The
value type, the compact serialiser (`json.dumps` with Starlette
`JSONResponse`'s `separators=(",", ":")`) and a recursive-descent model of
`json.loads` over the fragment the middleware handles: `null`, booleans,
integers, plain strings (no escape sequences), arrays and objects. -/

inductive JsonValue where
  | null
  | bool (b : Bool)
  | num (n : Int)
  | str (s : String)
  | arr (xs : List JsonValue)
  | obj (kvs : List (String × JsonValue))
deriving Repr

/-- Is the value a JSON mapping? -/
def JsonValue.isObj : JsonValue → Bool
  | .obj _ => true
  | _ => false

mutual

/-- `json.dumps(v, ensure_ascii=False, separators=(",", ":"))` on the
fragment (strings are emitted unescaped: the fragment excludes quotes,
backslashes and control characters inside string values). -/
def dumpsJson : JsonValue → String
  | .null => "null"
  | .bool true => "true"
  | .bool false => "false"
  | .num n => toString n
  | .str s => "\"" ++ s ++ "\""
  | .arr xs => "[" ++ dumpsArr xs ++ "]"
  | .obj kvs => "\x7b" ++ dumpsObj kvs ++ "\x7d"

def dumpsArr : List JsonValue → String
  | [] => ""
  | [x] => dumpsJson x
  | x :: y :: rest => dumpsJson x ++ "," ++ dumpsArr (y :: rest)

def dumpsObj : List (String × JsonValue) → String
  | [] => ""
  | [(k, v)] => "\"" ++ k ++ "\":" ++ dumpsJson v
  | (k, v) :: p :: rest => "\"" ++ k ++ "\":" ++ dumpsJson v ++ "," ++ dumpsObj (p :: rest)

end

/-- Skip JSON whitespace. -/
def skipWs : List Char → List Char
  | [] => []
  | c :: rest =>
    if c = ' ' ∨ c = '\t' ∨ c = '\n' ∨ c = '\r' then skipWs rest else c :: rest

/-- Scan a string body up to the closing quote (fragment: no escapes). -/
def scanStringBody : List Char → Option (String × List Char)
  | [] => none
  | c :: rest =>
    if c = '"' then some ("", rest)
    else match scanStringBody rest with
      | some (s, r) => some (String.mk (c :: s.toList), r)
      | none => none

/-- Scan a run of decimal digits. -/
def scanDigits : List Char → List Nat × List Char
  | [] => ([], [])
  | c :: rest =>
    if c.isDigit then
      match scanDigits rest with
      | (ds, r) => ((c.toNat - 48) :: ds, r)
    else ([], c :: rest)

mutual

/-- Parse one JSON value (fuel-driven). -/
def parseValue : Nat → List Char → Option (JsonValue × List Char)
  | 0, _ => none
  | fuel + 1, input =>
    match skipWs input with
    | [] => none
    | c :: rest =>
      if c = '"' then
        match scanStringBody rest with
        | some (s, r) => some (.str s, r)
        | none => none
      else if c = '[' then
        match skipWs rest with
        | [] => none
        | c' :: rest' =>
          if c' = ']' then some (.arr [], rest')
          else parseArrItems fuel (c' :: rest') []
      else if c = Char.ofNat 123 then
        match skipWs rest with
        | [] => none
        | c' :: rest' =>
          if c' = Char.ofNat 125 then some (.obj [], rest')
          else parseObjItems fuel (c' :: rest') []
      else if c = 'n' then
        match rest with
        | 'u' :: 'l' :: 'l' :: r => some (.null, r)
        | _ => none
      else if c = 't' then
        match rest with
        | 'r' :: 'u' :: 'e' :: r => some (.bool true, r)
        | _ => none
      else if c = 'f' then
        match rest with
        | 'a' :: 'l' :: 's' :: 'e' :: r => some (.bool false, r)
        | _ => none
      else if c = '-' then
        match scanDigits rest with
        | ([], _) => none
        | (ds, r) => some (.num (-(Int.ofNat (digitsToNat ds))), r)
      else if c.isDigit then
        match scanDigits (c :: rest) with
        | ([], _) => none
        | (ds, r) => some (.num (Int.ofNat (digitsToNat ds)), r)
      else none

/-- Parse the items of a non-empty array, after `[`. -/
def parseArrItems : Nat → List Char → List JsonValue → Option (JsonValue × List Char)
  | 0, _, _ => none
  | fuel + 1, input, acc =>
    match parseValue fuel input with
    | none => none
    | some (v, rest) =>
      match skipWs rest with
      | [] => none
      | c :: rest' =>
        if c = ',' then parseArrItems fuel rest' (acc ++ [v])
        else if c = ']' then some (.arr (acc ++ [v]), rest')
        else none

/-- Parse the members of a non-empty object, after the opening brace. -/
def parseObjItems : Nat → List Char → List (String × JsonValue) →
    Option (JsonValue × List Char)
  | 0, _, _ => none
  | fuel + 1, input, acc =>
    match skipWs input with
    | [] => none
    | c :: rest =>
      if c = '"' then
        match scanStringBody rest with
        | none => none
        | some (k, rest₁) =>
          match skipWs rest₁ with
          | [] => none
          | c₁ :: rest₂ =>
            if c₁ = ':' then
              match parseValue fuel rest₂ with
              | none => none
              | some (v, rest₃) =>
                match skipWs rest₃ with
                | [] => none
                | c₂ :: rest₄ =>
                  if c₂ = ',' then parseObjItems fuel rest₄ (acc ++ [(k, v)])
                  else if c₂ = Char.ofNat 125 then some (.obj (acc ++ [(k, v)]), rest₄)
                  else none
            else none
      else none

end

/-- `json.loads`: parse a full document, allowing trailing whitespace only.
Faithful on the fragment above; it diverges from `json.loads` on spellings
outside it (floats, exponents, string escape sequences, leading-zero
numbers), and every body a claim below quantifies over or evaluates at
stays inside the fragment. -/
def parseJson (s : String) : Option JsonValue :=
  match parseValue (2 * s.length + 2) s.toList with
  | some (v, rest) => if skipWs rest = [] then some v else none
  | none => none

/-- First-match lookup in a JSON object (`data[k]` / `k in data`). -/
def jsonLookup (k : String) : List (String × JsonValue) → Option JsonValue
  | [] => none
  | (k', v) :: rest => if k' = k then some v else jsonLookup k rest

/-- Python `data[k] = v` on a JSON object. -/
def jsonSet (k : String) (v : JsonValue) :
    List (String × JsonValue) → List (String × JsonValue)
  | [] => [(k, v)]
  | (k', v') :: rest =>
    if k' = k then (k, v) :: rest else (k', v') :: jsonSet k v rest

theorem jsonLookup_set_self (k : String) (v : JsonValue)
    (kvs : List (String × JsonValue)) :
    jsonLookup k (jsonSet k v kvs) = some v := by
  induction kvs with
  | nil => simp [jsonSet, jsonLookup]
  | cons p rest ih =>
    obtain ⟨k', v'⟩ := p
    by_cases h : k' = k
    · simp [jsonSet, jsonLookup, h]
    · simp [jsonSet, jsonLookup, h, ih]

theorem jsonLookup_set_ne (k' k : String) (v : JsonValue)
    (kvs : List (String × JsonValue)) (h : k' ≠ k) :
    jsonLookup k' (jsonSet k v kvs) = jsonLookup k' kvs := by
  have hk : ¬ (k = k') := fun hh => h hh.symm
  induction kvs with
  | nil => simp [jsonSet, jsonLookup, hk]
  | cons p rest ih =>
    obtain ⟨k₀, v₀⟩ := p
    by_cases h₀ : k₀ = k
    · have hk₀ : ¬ (k₀ = k') := by
        rw [h₀]; exact hk
      simp [jsonSet, jsonLookup, h₀, hk, hk₀]
    · by_cases h₁ : k₀ = k'
      · simp [jsonSet, jsonLookup, h₀, h₁, h]
      · simp [jsonSet, jsonLookup, h₀, h₁, ih]

/-! `app/utils/accessibility.py`: context extraction, JSON response
enrichment, accessibility headers; `app/utils/analytics.py`: response-info
derivation; `app/main.py`: middleware registration order. -/

/-- ASCII lowering of one character (`str.lower()` on the ASCII fragment). -/
def lowerChar (c : Char) : Char :=
  if 'A' ≤ c ∧ c ≤ 'Z' then Char.ofNat (c.toNat + 32) else c

/-- `str.lower()`, on the ASCII fragment header names and messages use. -/
def lowerStr (s : String) : String := String.mk (s.toList.map lowerChar)

/-- Case-insensitive first-match header read, as `starlette`'s
`Headers.get(k)` / `Headers.get(k, default)` (via `getD`). -/
def headerGet (headers : List (String × String)) (k : String) : Option String :=
  match headers with
  | [] => none
  | (k', v) :: rest => if lowerStr k' = lowerStr k then some v else headerGet rest k

/-- The request-scoped context built by
`AccessibilityMiddleware._get_accessibility_context`. `font_size` and
`language` are the raw header strings, exactly as the source stores them. -/
structure AccessibilityContext where
  screen_reader : Bool
  high_contrast : Bool
  reduced_motion : Bool
  keyboard_navigation : Bool
  font_size : String
  language : String
  user_agent : String
deriving DecidableEq, Repr

/-- `AccessibilityMiddleware._get_accessibility_context(request)`: each
boolean is `headers.get(name) == "true"`; `font_size`, `language` and
`user_agent` are `headers.get(name, default)` with defaults `"16"`, `"en"`,
`""`. -/
def get_accessibility_context (headers : List (String × String)) :
    AccessibilityContext :=
  ⟨headerGet headers "X-Screen-Reader" == some "true",
   headerGet headers "X-High-Contrast" == some "true",
   headerGet headers "X-Reduced-Motion" == some "true",
   headerGet headers "X-Keyboard-Navigation" == some "true",
   (headerGet headers "X-Font-Size").getD "16",
   (headerGet headers "Accept-Language").getD "en",
   (headerGet headers "User-Agent").getD ""⟩

/-- The context dict as the JSON it serialises to. -/
def ctxToJson (ctx : AccessibilityContext) : JsonValue :=
  .obj [("screen_reader", .bool ctx.screen_reader),
        ("high_contrast", .bool ctx.high_contrast),
        ("reduced_motion", .bool ctx.reduced_motion),
        ("keyboard_navigation", .bool ctx.keyboard_navigation),
        ("font_size", .str ctx.font_size),
        ("language", .str ctx.language),
        ("user_agent", .str ctx.user_agent)]

/-- The `data["_accessibility"]` block set by `_enhance_json_response`. -/
def accessibilityBlock (ctx : AccessibilityContext) : JsonValue :=
  .obj [("wcag_level", .str "AA"),
        ("screen_reader_optimized", .bool true),
        ("keyboard_accessible", .bool true),
        ("high_contrast_available", .bool true),
        ("context", ctxToJson ctx)]

/-- Does `needle` occur as a contiguous run inside the second list? -/
def listIsInfixOf (needle : List Char) : List Char → Bool
  | [] => needle.isEmpty
  | c :: rest => needle.isPrefixOf (c :: rest) || listIsInfixOf needle rest

/-- Python's substring test `needle in hay`. -/
def strContains (hay needle : String) : Bool :=
  listIsInfixOf needle.toList hay.toList

/-- The `screen_reader_replacements` table, in dict iteration order. -/
def screenReaderReplacements : List (String × String) :=
  [("401", "Authentication required. Please log in to continue."),
   ("403", "Access denied. You don't have permission for this action."),
   ("404", "The requested resource was not found."),
   ("422", "The submitted data contains errors. Please check and try again."),
   ("500", "A server error occurred. Please try again later or contact support.")]

/-- `AccessibilityMiddleware._create_screen_reader_message`: first table
entry whose code is a substring of the message, else the message. -/
def create_screen_reader_message (message : String) : String :=
  match screenReaderReplacements.find? (fun p => strContains message p.1) with
  | some p => p.2
  | none => message

/-- The `user_friendly_replacements` table, in dict iteration order. -/
def userFriendlyReplacements : List (String × String) :=
  [("validation error", "Please check the information you entered and try again."),
   ("unauthorized", "Please sign in to access this feature."),
   ("forbidden", "You don't have permission to perform this action."),
   ("not found", "The item you're looking for couldn't be found."),
   ("internal server error", "Something went wrong. Please try again in a moment.")]

/-- `AccessibilityMiddleware._create_user_friendly_message`: case-insensitive
trigger-phrase match on the lowered message, else the message. -/
def create_user_friendly_message (message : String) : String :=
  match userFriendlyReplacements.find? (fun p => strContains (lowerStr message) p.1) with
  | some p => p.2
  | none => message

/-- Lines 52–68 of `_enhance_json_response`: the transformation of a parsed
dict body. `none` models the exception raised when `error.message` exists
but is not a string (`"401" in message` raises `TypeError` for
non-iterables, `message.lower()` raises `AttributeError` otherwise), which
the outer `except` turns into "return the original response". -/
def enhance_data (ctx : AccessibilityContext)
    (data : List (String × JsonValue)) : Option (List (String × JsonValue)) :=
  let d1 := jsonSet "_accessibility" (accessibilityBlock ctx) data
  match jsonLookup "error" d1 with
  | some (.obj err) =>
    match jsonLookup "message" err with
    | some (.str m) =>
      some (jsonSet "error"
        (.obj (jsonSet "user_friendly_message" (.str (create_user_friendly_message m))
          (jsonSet "screen_reader_message" (.str (create_screen_reader_message m)) err)))
        d1)
    | some _ => none
    | none => some d1
  | _ => some d1

/-- `AccessibilityMiddleware._enhance_json_response`, at the body level:
`content = response.body.decode() if response.body else "\x7b\x7d"`, then
`json.loads`; a dict body is enhanced and re-serialised by a fresh
`JSONResponse` (compact separators), a parsed non-dict body is re-serialised
unchanged, and any exception (unparseable body, non-string `error.message`)
returns the original body unmodified. -/
def enhance_json_response (ctx : AccessibilityContext) (body : String) : String :=
  let content := if body = "" then "\x7b\x7d" else body
  match parseJson content with
  | none => body
  | some (.obj kvs) =>
    match enhance_data ctx kvs with
    | some d => dumpsJson (.obj d)
    | none => body
  | some v => dumpsJson v

/-- Python `headers[k] = v` on `MutableHeaders` (case-insensitive replace
or append). -/
def headerSet (k v : String) : List (String × String) → List (String × String)
  | [] => [(k, v)]
  | (k', v') :: rest =>
    if k'.toLower = k.toLower then (k, v) :: rest
    else (k', v') :: headerSet k v rest

/-- A response as the two middlewares see it: status, body bytes, headers
and whether it is a `JSONResponse` instance. -/
structure Response where
  status_code : Int
  body : String
  headers : List (String × String)
  isJsonResponse : Bool
deriving DecidableEq, Repr

/-- A request: path, headers and the `request.state.accessibility_context`
slot (unset until `AccessibilityMiddleware.dispatch` fills it). -/
structure Request where
  path : String
  headers : List (String × String)
  accessibility_context : Option AccessibilityContext
deriving DecidableEq, Repr

/-- `AccessibilityMiddleware._add_accessibility_headers`. -/
def add_accessibility_headers (r : Response) : Response :=
  ⟨r.status_code, r.body,
   headerSet "X-Content-Language" "en"
     (headerSet "X-High-Contrast-Support" "true"
       (headerSet "X-Keyboard-Accessible" "true"
         (headerSet "X-Screen-Reader-Optimized" "true"
           (headerSet "X-Accessibility-Compliant" "WCAG-2.1-AA" r.headers)))),
   r.isJsonResponse⟩

/-- `AccessibilityMiddleware.dispatch`: attach the extracted context to the
request state, invoke the inner application (`await call_next(request)`,
an arbitrary timed function from the mutated request and clock instant to a
response and a later instant), enhance `JSONResponse` bodies with that
context, and add the accessibility headers. The `isJsonResponse` flag
models the source's `isinstance(response, JSONResponse)` guard as written;
in the deployed app Starlette's `BaseHTTPMiddleware` hands `call_next`'s
result back wrapped in a streaming response, so that guard is always false
there and the enhancement branch never fires end-to-end — the model
overapproximates by letting the flag be set, which only adds behaviour on
the enhancement branch and changes none of the ordering facts. -/
def accessibility_dispatch (call_next : Request → Nat → Response × Nat)
    (req : Request) (t : Nat) : Response × Nat :=
  let ctx := get_accessibility_context req.headers
  let inner := call_next ⟨req.path, req.headers, some ctx⟩ t
  let resp := inner.1
  let enhanced :=
    if resp.isJsonResponse then
      ⟨resp.status_code, enhance_json_response ctx resp.body, resp.headers, true⟩
    else resp
  (add_accessibility_headers enhanced, inner.2)

/-- `AnalyticsMiddleware._extract_response_info(response, process_time)`. -/
structure ResponseInfo where
  status_code : Int
  process_time : Nat
  headers : List (String × String)
  success : Bool
deriving DecidableEq, Repr

def extract_response_info (resp : Response) (process_time : Nat) : ResponseInfo :=
  ⟨resp.status_code, process_time, resp.headers,
   decide (200 ≤ resp.status_code ∧ resp.status_code < 400)⟩

/-- `AnalyticsMiddleware.dispatch`: record `start_time = time.time()`,
invoke the inner application, compute the elapsed time from its completion
instant, and derive the analytics response info from the response the inner
application returned. -/
def analytics_dispatch (call_next : Request → Nat → Response × Nat)
    (req : Request) (t : Nat) : (Response × ResponseInfo) × Nat :=
  let inner := call_next req t
  ((inner.1, extract_response_info inner.1 (inner.2 - t)), inner.2)

/-- `main.py` middleware registration: `app.add_middleware(Accessibility…)`
on line 136, `app.add_middleware(Analytics…)` on line 139; in Starlette the
later-added middleware is the outer one, so analytics wraps accessibility,
which wraps the route handler. -/
def middleware_pipeline (handler : Request → Nat → Response × Nat)
    (req : Request) (t : Nat) : (Response × ResponseInfo) × Nat :=
  analytics_dispatch (accessibility_dispatch handler) req t

/-- Claim C6 counterexample: the mapping body `("error": ("message": null))`
(a JSON object) is returned by the enrichment stage byte-identical and
without any `_accessibility` key: the error-rewrite step raises on the
non-string `message`, and the stage's `except` returns the original
response. -/
theorem enrichment_mapping_counterexample :
    parseJson "\x7b\"error\":\x7b\"message\":null\x7d\x7d" =
      some (.obj [("error", .obj [("message", JsonValue.null)])])
    ∧ enhance_json_response (get_accessibility_context [])
        "\x7b\"error\":\x7b\"message\":null\x7d\x7d" =
        "\x7b\"error\":\x7b\"message\":null\x7d\x7d"
    ∧ jsonLookup "_accessibility" [("error", .obj [("message", JsonValue.null)])] =
        none := by
  refine ⟨by rfl, by rfl, by rfl⟩

/-- Claim C6 as amended: whenever the enrichment stage does produce an
enhanced body from a mapping (that is, whenever the error-rewrite step does
not raise — in particular whenever `error.message`, if present under a
mapping `error`, is a string), the enhanced mapping carries a top-level
`_accessibility` key holding `wcag_level`, `screen_reader_optimized`,
`keyboard_accessible`, `high_contrast_available` and the captured request
context, and the stage's output body is that mapping's serialisation; a
mapping body on which the rewrite step raises is passed through
unmodified. -/
theorem enrichment_injects_accessibility :
    (∀ (ctx : AccessibilityContext) (data d : List (String × JsonValue)),
      enhance_data ctx data = some d →
      jsonLookup "_accessibility" d = some (accessibilityBlock ctx))
    ∧ (∀ (ctx : AccessibilityContext) (body : String)
        (kvs d : List (String × JsonValue)),
        parseJson body = some (.obj kvs) →
        enhance_data ctx kvs = some d →
        enhance_json_response ctx body = dumpsJson (.obj d)) := by
  constructor
  · intro ctx data d h
    have hacc : jsonLookup "_accessibility"
        (jsonSet "_accessibility" (accessibilityBlock ctx) data) =
        some (accessibilityBlock ctx) := jsonLookup_set_self _ _ _
    simp only [enhance_data] at h
    split at h
    · split at h
      · simp only [Option.some.injEq] at h
        subst h
        rw [jsonLookup_set_ne _ _ _ _ (by decide)]
        exact hacc
      · exact absurd h (by simp)
      · simp only [Option.some.injEq] at h
        subst h
        exact hacc
    · simp only [Option.some.injEq] at h
      subst h
      exact hacc
  · intro ctx body kvs d hp hd
    have hb : body ≠ "" := by
      intro hb
      rw [hb] at hp
      have h0 : parseJson "" = none := by rfl
      rw [h0] at hp
      exact Option.noConfusion hp
    simp only [enhance_json_response, if_neg hb, hp, hd]

/-- Claim C6 amended, witness: for the mapping body `("a": 1)` under the
default context, the enhanced mapping's `_accessibility` entry is the
accessibility block, and the stage output is the enhanced serialisation. -/
theorem enrichment_injects_accessibility_witness :
    jsonLookup "_accessibility"
      (jsonSet "_accessibility" (accessibilityBlock (get_accessibility_context []))
        [("a", JsonValue.num 1)]) =
      some (accessibilityBlock (get_accessibility_context []))
    ∧ enhance_json_response (get_accessibility_context []) "\x7b\"a\":1\x7d" =
      dumpsJson (.obj (jsonSet "_accessibility"
        (accessibilityBlock (get_accessibility_context [])) [("a", JsonValue.num 1)])) :=
  ⟨enrichment_injects_accessibility.1 (get_accessibility_context [])
     [("a", JsonValue.num 1)] _ (by rfl),
   enrichment_injects_accessibility.2 (get_accessibility_context [])
     "\x7b\"a\":1\x7d" [("a", JsonValue.num 1)] _ (by rfl) (by rfl)⟩

/-- Claim C7 counterexample: the non-mapping JSON body `"[1, 2]"` is
re-serialised by the stage with compact separators to `"[1,2]"`, which is
not byte-identical to the original body. -/
theorem nonmapping_body_reserialized_counterexample :
    parseJson "[1, 2]" = some (.arr [JsonValue.num 1, JsonValue.num 2])
    ∧ enhance_json_response (get_accessibility_context []) "[1, 2]" = "[1,2]"
    ∧ "[1,2]" ≠ "[1, 2]" := by
  refine ⟨by rfl, by rfl, by decide⟩

/-- Claim C7 as amended: a nonempty body that does not parse as JSON passes
through the stage byte-identical; a body that parses to a non-mapping JSON
value is returned as the compact re-serialisation of that value —
semantically the same JSON value, but not byte-identical whenever the
original spelling differs from the compact form (and an empty body is read
as an empty mapping and enriched rather than passed through). -/
theorem nonmapping_passthrough_amended :
    ∀ (ctx : AccessibilityContext) (body : String),
      (body ≠ "" → parseJson body = none → enhance_json_response ctx body = body)
      ∧ (∀ v : JsonValue, parseJson body = some v → v.isObj = false →
          enhance_json_response ctx body = dumpsJson v) := by
  intro ctx body
  constructor
  · intro hb hp
    simp only [enhance_json_response, if_neg hb, hp]
  · intro v hp hv
    have hb : body ≠ "" := by
      intro hb
      rw [hb] at hp
      have h0 : parseJson "" = none := by rfl
      rw [h0] at hp
      exact Option.noConfusion hp
    cases v with
    | obj kvs => simp [JsonValue.isObj] at hv
    | null => simp only [enhance_json_response, if_neg hb, hp]
    | bool b => simp only [enhance_json_response, if_neg hb, hp]
    | num n => simp only [enhance_json_response, if_neg hb, hp]
    | str s => simp only [enhance_json_response, if_neg hb, hp]
    | arr xs => simp only [enhance_json_response, if_neg hb, hp]

/-- Claim C7 amended, witness: a non-JSON body passes through unchanged, and
the already-compact array body `"[true]"` round-trips byte-identical. -/
theorem nonmapping_passthrough_amended_witness :
    enhance_json_response (get_accessibility_context []) "not json" = "not json"
    ∧ enhance_json_response (get_accessibility_context []) "[true]" = "[true]" :=
  ⟨(nonmapping_passthrough_amended (get_accessibility_context []) "not json").1
     (by decide) (by rfl),
   (nonmapping_passthrough_amended (get_accessibility_context []) "[true]").2
     (.arr [.bool true]) (by rfl) (by rfl)⟩

/-- Claim C8 counterexample: a malformed `X-Font-Size` header value is
stored verbatim in the context instead of falling back to the default
`"16"` — the extractor never validates or coerces it. -/
theorem malformed_font_size_counterexample :
    (get_accessibility_context [("X-Font-Size", "banana")]).font_size = "banana"
    ∧ "banana" ≠ "16" := by
  refine ⟨by rfl, by decide⟩

/-- Claim C8 as amended: when the accessibility headers are absent the
extracted context carries the defaults (`font_size = "16"`,
`language = "en"`, every boolean flag false); the extractor is a total
function, so no header value can fail the request, and a boolean-flag
header with any value other than exactly `"true"` falls back to `false` —
but `X-Font-Size` and `Accept-Language` values are taken verbatim, not
replaced by defaults when malformed. -/
theorem context_extraction_defaults_and_verbatim :
    ∀ headers : List (String × String),
      (headerGet headers "X-Screen-Reader" = none →
        (get_accessibility_context headers).screen_reader = false)
      ∧ (headerGet headers "X-High-Contrast" = none →
          (get_accessibility_context headers).high_contrast = false)
      ∧ (headerGet headers "X-Reduced-Motion" = none →
          (get_accessibility_context headers).reduced_motion = false)
      ∧ (headerGet headers "X-Keyboard-Navigation" = none →
          (get_accessibility_context headers).keyboard_navigation = false)
      ∧ (headerGet headers "X-Font-Size" = none →
          (get_accessibility_context headers).font_size = "16")
      ∧ (headerGet headers "Accept-Language" = none →
          (get_accessibility_context headers).language = "en")
      ∧ (∀ v, headerGet headers "X-Screen-Reader" = some v → v ≠ "true" →
          (get_accessibility_context headers).screen_reader = false)
      ∧ (∀ v, headerGet headers "X-Font-Size" = some v →
          (get_accessibility_context headers).font_size = v)
      ∧ (∀ v, headerGet headers "Accept-Language" = some v →
          (get_accessibility_context headers).language = v) := by
  intro headers
  refine ⟨?_, ?_, ?_, ?_, ?_, ?_, ?_, ?_, ?_⟩
  · intro h; simp [get_accessibility_context, h]
  · intro h; simp [get_accessibility_context, h]
  · intro h; simp [get_accessibility_context, h]
  · intro h; simp [get_accessibility_context, h]
  · intro h; simp [get_accessibility_context, h]
  · intro h; simp [get_accessibility_context, h]
  · intro v h hv
    simp [get_accessibility_context, h, beq_eq_false_iff_ne, hv]
  · intro v h; simp [get_accessibility_context, h]
  · intro v h; simp [get_accessibility_context, h]

/-- Claim C8 amended, witness: with no headers every field is the default,
and a malformed boolean header value yields `false`. -/
theorem context_extraction_defaults_witness :
    (get_accessibility_context []).screen_reader = false
    ∧ (get_accessibility_context []).font_size = "16"
    ∧ (get_accessibility_context []).language = "en"
    ∧ (get_accessibility_context [("X-Screen-Reader", "banana")]).screen_reader = false :=
  ⟨(context_extraction_defaults_and_verbatim []).1 (by rfl),
   (context_extraction_defaults_and_verbatim []).2.2.2.2.1 (by rfl),
   (context_extraction_defaults_and_verbatim []).2.2.2.2.2.1 (by rfl),
   (context_extraction_defaults_and_verbatim [("X-Screen-Reader", "banana")]).2.2.2.2.2.2.1
     "banana" (by rfl) (by decide)⟩

/-- Claim C9: in the registered pipeline (analytics outside accessibility,
per `main.py`), for every handler, request and start instant: the handler
is invoked on the request carrying the freshly extracted accessibility
context; the enrichment step is applied to exactly the handler's returned
response; and the analytics stage derives its response info (status code,
success flag, elapsed time up to the inner application's completion
instant) from the enriched response — its recorded status and success flag
are those of the response actually returned to the caller. -/
theorem pipeline_ordering :
    ∀ (handler : Request → Nat → Response × Nat) (req : Request) (t : Nat),
      middleware_pipeline handler req t =
        (let ctx := get_accessibility_context req.headers
         let inner := handler ⟨req.path, req.headers, some ctx⟩ t
         let enriched := add_accessibility_headers
           (if inner.1.isJsonResponse then
             ⟨inner.1.status_code, enhance_json_response ctx inner.1.body,
              inner.1.headers, true⟩
            else inner.1)
         ((enriched, extract_response_info enriched (inner.2 - t)), inner.2))
      ∧ (middleware_pipeline handler req t).1.2.status_code =
          (middleware_pipeline handler req t).1.1.status_code
      ∧ (middleware_pipeline handler req t).1.2.success =
          decide (200 ≤ (middleware_pipeline handler req t).1.1.status_code ∧
            (middleware_pipeline handler req t).1.1.status_code < 400) := by
  intro handler req t
  exact ⟨rfl, rfl, rfl⟩

end VoucherPay
